import Mathlib

/-!
# Verification of the remote MCP server's handlers

This file embeds the handler functions of the repository's two Python
source files (`remote_mcp_server.py` and `echo_server.py`) into Lean 4 and
proves properties about them.

The `calculate` tool hands its input string to the host-language evaluator
`eval(expression, {"__builtins__": {}}, allowed_names)`.  To reason about
it we embed the fragment of Python expression evaluation that such inputs
exercise: integer and string literals, the operators `+ - * / % **`, unary
`+`/`-`, parentheses, name lookup (the locals mapping `allowed_names`
containing `abs max min round sum`, and the globals mapping containing only
`__builtins__ = {}`), calls, list displays, and subscripts.  Python
`float`s are represented by rationals; no claim below depends on the value
or rendering of a float, only on the exact integer results and on the
exceptions raised.  Exception objects are represented by their `str(e)`
text, which is exactly what the handler interpolates into its return value.

Evaluation uses explicit fuel so that every definition computes by kernel
reduction; running out of fuel yields the text of Python's
`RecursionError`, which the handler's `except Exception` also catches, so
the fuel is itself a faithful part of the model.

`fetch_webpage` is embedded with the network as an explicit oracle
(`String → FetchOutcome`), `get_weather` with the `random` module as an
explicit oracle; properties about "no network I/O" and determinism become
statements of independence from the oracle.
-/

namespace RemoteMcp

/-- Python runtime values, for the fragment reachable from `calculate`.
`float` is carried as a rational; `builtin` is one of the whitelisted
built-in function objects; `dict` covers the `__builtins__` value `{}`. -/
inductive PyVal where
  | int (n : Int)
  | float (q : Rat)
  | str (s : String)
  | list (xs : List PyVal)
  | builtin (f : String)
  | dict (entries : List (String × String))

/-- The Python type name of a value, as used in exception messages. -/
def typeName : PyVal → String
  | .int _ => "int"
  | .float _ => "float"
  | .str _ => "str"
  | .list _ => "list"
  | .builtin _ => "builtin_function_or_method"
  | .dict _ => "dict"

mutual

/-- `repr()` of a value (only the cases our fragment can produce). -/
def pyRepr : PyVal → String
  | .int n => toString n
  | .float q => toString q
  | .str s => "'" ++ s ++ "'"
  | .list xs => "[" ++ String.intercalate ", " (pyReprList xs) ++ "]"
  | .builtin f => "<built-in function " ++ f ++ ">"
  | .dict _ => "\x7b\x7d"

/-- `repr()` of each element of a list. -/
def pyReprList : List PyVal → List String
  | [] => []
  | v :: vs => pyRepr v :: pyReprList vs

end

/-- `str()` of a value, i.e. what `str(eval(...))` renders. -/
def pyStr : PyVal → String
  | .str s => s
  | v => pyRepr v

/-- Exceptions are modelled by their `str(e)` text. -/
abbrev PyResult := Except String PyVal

/-- The text of Python's `NameError` for an unbound name. -/
def nameErrorText (x : String) : String :=
  "name '" ++ x ++ "' is not defined"

/-- The mapping the source passes to `eval` as locals:
`{"abs": abs, "max": max, "min": min, "round": round, "sum": sum}`. -/
def allowed_names : List String := ["abs", "max", "min", "round", "sum"]

/-- Name resolution inside the `eval` call: locals is `allowed_names`,
globals is `{"__builtins__": {}}`, and no builtins are reachable. -/
def lookupName (x : String) : PyResult :=
  if x ∈ allowed_names then .ok (.builtin x)
  else if x = "__builtins__" then .ok (.dict [])
  else .error (nameErrorText x)

/-- The `TypeError` text for an unsupported binary operation. -/
def binOpError (op : String) (a b : PyVal) : String :=
  "unsupported operand type(s) for " ++ op ++ ": '" ++ typeName a ++
    "' and '" ++ typeName b ++ "'"

/-- Python `+`. -/
def pyAdd : PyVal → PyVal → PyResult
  | .int a, .int b => .ok (.int (a + b))
  | .int a, .float b => .ok (.float (a + b))
  | .float a, .int b => .ok (.float (a + b))
  | .float a, .float b => .ok (.float (a + b))
  | .str a, .str b => .ok (.str (a ++ b))
  | .list a, .list b => .ok (.list (a ++ b))
  | a, b => .error (binOpError "+" a b)

/-- Python binary `-`. -/
def pySub : PyVal → PyVal → PyResult
  | .int a, .int b => .ok (.int (a - b))
  | .int a, .float b => .ok (.float (a - b))
  | .float a, .int b => .ok (.float (a - b))
  | .float a, .float b => .ok (.float (a - b))
  | a, b => .error (binOpError "-" a b)

/-- Sequence replication `s * n` for a replication count. -/
def replicateCount (n : Int) : Nat := n.toNat

/-- Python `*`. -/
def pyMul : PyVal → PyVal → PyResult
  | .int a, .int b => .ok (.int (a * b))
  | .int a, .float b => .ok (.float (a * b))
  | .float a, .int b => .ok (.float (a * b))
  | .float a, .float b => .ok (.float (a * b))
  | .str s, .int n => .ok (.str (String.join (List.replicate (replicateCount n) s)))
  | .int n, .str s => .ok (.str (String.join (List.replicate (replicateCount n) s)))
  | .list l, .int n => .ok (.list (List.flatten (List.replicate (replicateCount n) l)))
  | .int n, .list l => .ok (.list (List.flatten (List.replicate (replicateCount n) l)))
  | a, b => .error (binOpError "*" a b)

/-- Python `/` (true division; the result is always a `float`). -/
def pyDiv : PyVal → PyVal → PyResult
  | .int a, .int b =>
      if b = 0 then .error "division by zero"
      else .ok (.float ((a : Rat) / (b : Rat)))
  | .int a, .float b =>
      if b = 0 then .error "float division by zero"
      else .ok (.float (a / b))
  | .float a, .int b =>
      if b = 0 then .error "float division by zero"
      else .ok (.float (a / (b : Rat)))
  | .float a, .float b =>
      if b = 0 then .error "float division by zero"
      else .ok (.float (a / b))
  | a, b => .error (binOpError "/" a b)

/-- Python `%` on integers follows the sign of the divisor (`Int.fmod`). -/
def pyMod : PyVal → PyVal → PyResult
  | .int a, .int b =>
      if b = 0 then .error "integer division or modulo by zero"
      else .ok (.int (Int.fmod a b))
  | a, b => .error (binOpError "%" a b)

/-- Python `**` on integers: a nonnegative exponent gives an `int`, a
negative exponent gives a `float`. -/
def pyPow : PyVal → PyVal → PyResult
  | .int a, .int b =>
      if 0 ≤ b then .ok (.int (a ^ b.toNat))
      else if a = 0 then .error "0.0 cannot be raised to a negative power"
      else .ok (.float (1 / ((a : Rat) ^ (-b).toNat)))
  | a, b => .error (binOpError "**" a b)

/-- Python unary `-`. -/
def pyNeg : PyVal → PyResult
  | .int a => .ok (.int (-a))
  | .float a => .ok (.float (-a))
  | a => .error ("bad operand type for unary -: '" ++ typeName a ++ "'")

/-- Python unary `+`. -/
def pyPos : PyVal → PyResult
  | .int a => .ok (.int a)
  | .float a => .ok (.float a)
  | a => .error ("bad operand type for unary +: '" ++ typeName a ++ "'")

/-- Subscripting `a[i]`, with Python's negative-index convention. -/
def pySubscript : PyVal → PyVal → PyResult
  | .list xs, .int i =>
      let idx : Int := if i < 0 then i + xs.length else i
      if h : 0 ≤ idx ∧ idx.toNat < xs.length then
        .ok (xs.get ⟨idx.toNat, h.2⟩)
      else .error "list index out of range"
  | .str s, .int i =>
      let cs := s.toList
      let idx : Int := if i < 0 then i + cs.length else i
      if h : 0 ≤ idx ∧ idx.toNat < cs.length then
        .ok (.str (String.mk [cs.get ⟨idx.toNat, h.2⟩]))
      else .error "string index out of range"
  | a, .int _ => .error ("'" ++ typeName a ++ "' object is not subscriptable")
  | a, i =>
      .error ("'" ++ typeName a ++ "' indices must be integers, not '" ++
        typeName i ++ "'")

/-- Try to view every argument as an `int`. -/
def asInts : List PyVal → Option (List Int)
  | [] => some []
  | .int n :: rest => (asInts rest).map (n :: ·)
  | _ => none

/-- Apply one of the whitelisted builtins (`allowed_names`) to evaluated
arguments; calling any other value raises a `TypeError`. -/
def applyCall : PyVal → List PyVal → PyResult
  | .builtin "abs", [.int n] => .ok (.int n.natAbs)
  | .builtin "abs", [.float q] => .ok (.float |q|)
  | .builtin "abs", [v] => .error ("bad operand type for abs(): '" ++ typeName v ++ "'")
  | .builtin "abs", _ => .error "abs() takes exactly one argument"
  | .builtin "max", args =>
      match args with
      | [.list xs] =>
          match asInts xs with
          | some [] => .error "max() arg is an empty sequence"
          | some (n :: ns) => .ok (.int (ns.foldl max n))
          | none => .error "'>' not supported between instance operands"
      | _ =>
          match asInts args with
          | some [] => .error "max expected at least 1 argument, got 0"
          | some [_] => .error "'int' object is not iterable"
          | some (n :: ns) => .ok (.int (ns.foldl max n))
          | none => .error "'>' not supported between instance operands"
  | .builtin "min", args =>
      match args with
      | [.list xs] =>
          match asInts xs with
          | some [] => .error "min() arg is an empty sequence"
          | some (n :: ns) => .ok (.int (ns.foldl min n))
          | none => .error "'<' not supported between instance operands"
      | _ =>
          match asInts args with
          | some [] => .error "min expected at least 1 argument, got 0"
          | some [_] => .error "'int' object is not iterable"
          | some (n :: ns) => .ok (.int (ns.foldl min n))
          | none => .error "'<' not supported between instance operands"
  | .builtin "round", [.int n] => .ok (.int n)
  | .builtin "round", [.float q] =>
      let fl := q.floor
      let frac := q - fl
      if frac < 1/2 then .ok (.int fl)
      else if 1/2 < frac then .ok (.int (fl + 1))
      else if fl % 2 = 0 then .ok (.int fl) else .ok (.int (fl + 1))
  | .builtin "round", _ => .error "type not supported by round()"
  | .builtin "sum", [.list xs] =>
      match asInts xs with
      | some ns => .ok (.int (ns.foldl (· + ·) 0))
      | none => .error "unsupported operand type(s) for +"
  | .builtin "sum", [v] =>
      .error ("'" ++ typeName v ++ "' object is not iterable")
  | .builtin "sum", _ => .error "sum() takes at most 2 arguments"
  | .builtin f, _ => .error ("builtin '" ++ f ++ "' not modelled")
  | v, _ => .error ("'" ++ typeName v ++ "' object is not callable")

/-- The abstract syntax of the Python expression fragment.  `call` keeps a
general callee, as Python does; `listD` is a list display. -/
inductive PyExpr where
  | num (n : Int)
  | strLit (s : String)
  | name (x : String)
  | neg (e : PyExpr)
  | pos (e : PyExpr)
  | add (a b : PyExpr)
  | sub (a b : PyExpr)
  | mul (a b : PyExpr)
  | div (a b : PyExpr)
  | mod (a b : PyExpr)
  | pow (a b : PyExpr)
  | call (f : PyExpr) (args : List PyExpr)
  | listD (xs : List PyExpr)
  | subscript (a i : PyExpr)

/-- The text of Python's `RecursionError`. -/
def recursionErrorText : String := "maximum recursion depth exceeded"

mutual

/-- Evaluation of an expression, exactly as `eval` with globals
`{"__builtins__": {}}` and locals `allowed_names` does.  The fuel models
the interpreter's recursion limit. -/
def pyEval : Nat → PyExpr → PyResult
  | 0, _ => .error recursionErrorText
  | fuel + 1, e =>
    match e with
    | .num n => .ok (.int n)
    | .strLit s => .ok (.str s)
    | .name x => lookupName x
    | .neg a => do pyNeg (← pyEval fuel a)
    | .pos a => do pyPos (← pyEval fuel a)
    | .add a b => do pyAdd (← pyEval fuel a) (← pyEval fuel b)
    | .sub a b => do pySub (← pyEval fuel a) (← pyEval fuel b)
    | .mul a b => do pyMul (← pyEval fuel a) (← pyEval fuel b)
    | .div a b => do pyDiv (← pyEval fuel a) (← pyEval fuel b)
    | .mod a b => do pyMod (← pyEval fuel a) (← pyEval fuel b)
    | .pow a b => do pyPow (← pyEval fuel a) (← pyEval fuel b)
    | .call f args => do applyCall (← pyEval fuel f) (← pyEvalList fuel args)
    | .listD xs => do .ok (.list (← pyEvalList fuel xs))
    | .subscript a i => do pySubscript (← pyEval fuel a) (← pyEval fuel i)

/-- Evaluation of a list of expressions, left to right. -/
def pyEvalList : Nat → List PyExpr → Except String (List PyVal)
  | 0, _ => .error recursionErrorText
  | _, [] => .ok []
  | fuel + 1, e :: es => do
      let v ← pyEval fuel e
      let vs ← pyEvalList fuel es
      .ok (v :: vs)

end

/-! ## Tokenizing and parsing the expression string

`eval` first compiles its argument with the host parser; a `SyntaxError`
is likewise caught by the handler's `except Exception`.  We model the
parser for the fragment of the Python expression grammar spanned by the
tokens above, with Python's precedence: `**` (right associative, binding
over a unary operand on the right), unary `+`/`-`, then `* / %`, then
binary `+ -`, with postfix call and subscript trailers on atoms. -/

/-- Tokens of the expression fragment. -/
inductive Tok where
  | int (n : Nat)
  | ident (s : String)
  | strTok (s : String)
  | op (s : String)

/-- ASCII identifier characters (the fragment the claims exercise). -/
def isIdentStart (c : Char) : Bool := c.isAlpha || c = '_'

/-- Characters allowed after the first identifier character. -/
def isIdentChar (c : Char) : Bool := c.isAlphanum || c = '_'

/-- Read a run of decimal digits into a numeral. -/
def readDigits : List Char → Nat → Nat × List Char
  | [], acc => (acc, [])
  | c :: cs, acc =>
      if c.isDigit then readDigits cs (10 * acc + (c.toNat - 48))
      else (acc, c :: cs)

/-- Read a run of identifier characters. -/
def readIdentChars : List Char → List Char × List Char
  | [] => ([], [])
  | c :: cs =>
      if isIdentChar c then
        let (xs, rest) := readIdentChars cs
        (c :: xs, rest)
      else ([], c :: cs)

/-- Read the body of a string literal up to the closing quote; escape
sequences are outside the modelled fragment. -/
def readStrChars (quote : Char) : List Char → Option (List Char × List Char)
  | [] => none
  | c :: cs =>
      if c = quote then some ([], cs)
      else if c = '\\' then none
      else (readStrChars quote cs).map (fun p => (c :: p.1, p.2))

/-- The `str()` of a `SyntaxError` raised by compiling the expression. -/
def syntaxErrorText : String := "invalid syntax (<string>, line 1)"

/-- Tokenize the expression; the fuel is spent one unit per token or
skipped blank, so `length + 1` always suffices. -/
def tokenize : Nat → List Char → Except String (List Tok)
  | 0, _ => .error syntaxErrorText
  | _, [] => .ok []
  | fuel + 1, c :: cs =>
      if c = ' ' || c = '\t' || c = '\n' || c = '\r' then tokenize fuel cs
      else if c.isDigit then
        let (n, rest) := readDigits (c :: cs) 0
        do pure (.int n :: (← tokenize fuel rest))
      else if isIdentStart c then
        let (xs, rest) := readIdentChars (c :: cs)
        do pure (.ident (String.mk xs) :: (← tokenize fuel rest))
      else if c = '\'' || c = '"' then
        match readStrChars c cs with
        | some (xs, rest) => do pure (.strTok (String.mk xs) :: (← tokenize fuel rest))
        | none => .error "unterminated string literal (detected at line 1)"
      else if c = '*' then
        match cs with
        | '*' :: rest => do pure (.op "**" :: (← tokenize fuel rest))
        | _ => do pure (.op "*" :: (← tokenize fuel cs))
      else if c = '+' || c = '-' || c = '/' || c = '%' ||
              c = '(' || c = ')' || c = '[' || c = ']' || c = ',' then
        do pure (.op (String.mk [c]) :: (← tokenize fuel cs))
      else .error syntaxErrorText

mutual

/-- Additive level: `term (('+' | '-') term)*`. -/
def parseArith : Nat → List Tok → Except String (PyExpr × List Tok)
  | 0, _ => .error recursionErrorText
  | fuel + 1, ts => do
      let (e, ts) ← parseTerm fuel ts
      parseArithRest fuel e ts

/-- Left-associative chain of `+`/`-`. -/
def parseArithRest : Nat → PyExpr → List Tok → Except String (PyExpr × List Tok)
  | 0, _, _ => .error recursionErrorText
  | fuel + 1, acc, .op "+" :: ts => do
      let (r, ts) ← parseTerm fuel ts
      parseArithRest fuel (.add acc r) ts
  | fuel + 1, acc, .op "-" :: ts => do
      let (r, ts) ← parseTerm fuel ts
      parseArithRest fuel (.sub acc r) ts
  | _ + 1, acc, ts => .ok (acc, ts)

/-- Multiplicative level: `factor (('*' | '/' | '%') factor)*`. -/
def parseTerm : Nat → List Tok → Except String (PyExpr × List Tok)
  | 0, _ => .error recursionErrorText
  | fuel + 1, ts => do
      let (e, ts) ← parseFactor fuel ts
      parseTermRest fuel e ts

/-- Left-associative chain of `*`/`/`/`%`. -/
def parseTermRest : Nat → PyExpr → List Tok → Except String (PyExpr × List Tok)
  | 0, _, _ => .error recursionErrorText
  | fuel + 1, acc, .op "*" :: ts => do
      let (r, ts) ← parseFactor fuel ts
      parseTermRest fuel (.mul acc r) ts
  | fuel + 1, acc, .op "/" :: ts => do
      let (r, ts) ← parseFactor fuel ts
      parseTermRest fuel (.div acc r) ts
  | fuel + 1, acc, .op "%" :: ts => do
      let (r, ts) ← parseFactor fuel ts
      parseTermRest fuel (.mod acc r) ts
  | _ + 1, acc, ts => .ok (acc, ts)

/-- Unary level: `('+' | '-') factor | power`. -/
def parseFactor : Nat → List Tok → Except String (PyExpr × List Tok)
  | 0, _ => .error recursionErrorText
  | fuel + 1, .op "-" :: ts => do
      let (e, ts) ← parseFactor fuel ts
      .ok (.neg e, ts)
  | fuel + 1, .op "+" :: ts => do
      let (e, ts) ← parseFactor fuel ts
      .ok (.pos e, ts)
  | fuel + 1, ts => parsePower fuel ts

/-- Power level: `unit ('**' factor)?`, right associative. -/
def parsePower : Nat → List Tok → Except String (PyExpr × List Tok)
  | 0, _ => .error recursionErrorText
  | fuel + 1, ts => do
      let (a, ts) ← parseUnit fuel ts
      match ts with
      | .op "**" :: ts => do
          let (b, ts) ← parseFactor fuel ts
          .ok (.pow a b, ts)
      | _ => .ok (a, ts)

/-- An atom followed by its call/subscript trailers. -/
def parseUnit : Nat → List Tok → Except String (PyExpr × List Tok)
  | 0, _ => .error recursionErrorText
  | fuel + 1, ts => do
      let (a, ts) ← parseAtom fuel ts
      parseTrailers fuel a ts

/-- Atoms: literals, names, parenthesized expressions, list displays. -/
def parseAtom : Nat → List Tok → Except String (PyExpr × List Tok)
  | 0, _ => .error recursionErrorText
  | _ + 1, .int n :: ts => .ok (.num n, ts)
  | _ + 1, .strTok s :: ts => .ok (.strLit s, ts)
  | _ + 1, .ident x :: ts => .ok (.name x, ts)
  | fuel + 1, .op "(" :: ts => do
      let (e, ts) ← parseArith fuel ts
      match ts with
      | .op ")" :: ts => .ok (e, ts)
      | _ => .error syntaxErrorText
  | fuel + 1, .op "[" :: ts =>
      match ts with
      | .op "]" :: ts => .ok (.listD [], ts)
      | _ => do
          let (xs, ts) ← parseExprList fuel ts
          match ts with
          | .op "]" :: ts => .ok (.listD xs, ts)
          | _ => .error syntaxErrorText
  | _ + 1, _ => .error syntaxErrorText

/-- Postfix trailers: `(args)` builds a call, `[expr]` a subscript. -/
def parseTrailers : Nat → PyExpr → List Tok → Except String (PyExpr × List Tok)
  | 0, _, _ => .error recursionErrorText
  | fuel + 1, a, .op "(" :: ts =>
      match ts with
      | .op ")" :: ts => parseTrailers fuel (.call a []) ts
      | _ => do
          let (xs, ts) ← parseExprList fuel ts
          match ts with
          | .op ")" :: ts => parseTrailers fuel (.call a xs) ts
          | _ => .error syntaxErrorText
  | fuel + 1, a, .op "[" :: ts => do
      let (i, ts) ← parseArith fuel ts
      match ts with
      | .op "]" :: ts => parseTrailers fuel (.subscript a i) ts
      | _ => .error syntaxErrorText
  | _ + 1, a, ts => .ok (a, ts)

/-- A nonempty comma-separated list of expressions. -/
def parseExprList : Nat → List Tok → Except String (List PyExpr × List Tok)
  | 0, _ => .error recursionErrorText
  | fuel + 1, ts => do
      let (e, ts) ← parseArith fuel ts
      match ts with
      | .op "," :: ts => do
          let (rest, ts) ← parseExprList fuel ts
          .ok (e :: rest, ts)
      | _ => .ok ([e], ts)

end

/-- Compile the expression string to an AST, or a `SyntaxError` text.  The
parser fuel bounds the descent depth; ten units per remaining token is
ample, and exhausting it plays the role of the compiler's recursion
limit. -/
def parse (s : String) : Except String PyExpr := do
  let toks ← tokenize (s.toList.length + 1) s.toList
  let (e, rest) ← parseArith (10 * (toks.length + 1)) toks
  match rest with
  | [] => .ok e
  | _ => .error syntaxErrorText

/-- The interpreter's recursion limit, standing in for CPython's default
`sys.getrecursionlimit()`. -/
def recursionLimit : Nat := 1000

/-- The body of the `try:` block of `calculate`:
`eval(expression, {"__builtins__": {}}, allowed_names)`. -/
def evalExpression (s : String) : PyResult := do
  pyEval recursionLimit (← parse s)

/-- The `calculate` tool of `remote_mcp_server.py`: `str(eval(...))` on
success, `f"Error: {str(e)}"` when any exception is caught. -/
def calculate (expression : String) : String :=
  match evalExpression expression with
  | .ok v => pyStr v
  | .error e => "Error: " ++ e

mutual

/-- Modelled from the spec: the closed grammar the sandboxed evaluator is
required to accept and nothing else — numeric literals, `+ - * / % **`,
parentheses (already implicit in the AST), and calls to exactly the
whitelisted functions.  Identifiers elsewhere, attribute access, subscript
access, string literals and list displays are outside the grammar. -/
def allowedGrammar : PyExpr → Bool
  | .num _ => true
  | .neg e => allowedGrammar e
  | .pos e => allowedGrammar e
  | .add a b => allowedGrammar a && allowedGrammar b
  | .sub a b => allowedGrammar a && allowedGrammar b
  | .mul a b => allowedGrammar a && allowedGrammar b
  | .div a b => allowedGrammar a && allowedGrammar b
  | .mod a b => allowedGrammar a && allowedGrammar b
  | .pow a b => allowedGrammar a && allowedGrammar b
  | .call (.name f) args => decide (f ∈ allowed_names) && allowedGrammarList args
  | _ => false

/-- The closed grammar, on argument lists. -/
def allowedGrammarList : List PyExpr → Bool
  | [] => true
  | e :: es => allowedGrammar e && allowedGrammarList es

end

/-! ## The other handlers -/

/-- The `echo` tool of `echo_server.py`. -/
def echo (text : String) : String := text

/-- What the `httpx` client call inside `fetch_webpage` can produce:
either the `.text` of a response that passed `raise_for_status`, or the
`str(e)` of an exception (connection failure, timeout after 10 s, or an
error HTTP status). -/
inductive FetchOutcome where
  | success (body : String)
  | failure (msg : String)

/-- Character-level model of Python's `str.startswith`. -/
def strStartsWith (s pre : String) : Bool := pre.toList.isPrefixOf s.toList

/-- Character-level model of Python's slice `s[:n]`. -/
def strTake (s : String) (n : Nat) : String := String.mk (s.toList.take n)

/-- The `fetch_webpage` tool of `remote_mcp_server.py`, with the network
(the `httpx.AsyncClient.get` call, `raise_for_status` and `.text`) passed
as an explicit oracle.  The `ctx.info` log line has no effect on the
returned value and is omitted. -/
def fetch_webpage (net : String → FetchOutcome) (url : String) : String :=
  if !(strStartsWith url "http://" || strStartsWith url "https://") then
    "Error: URL must start with http:// or https://"
  else
    match net url with
    | .success body => strTake body 10000
    | .failure msg => "Error fetching page: " ++ msg

/-- The hardcoded city table of `get_weather`. -/
def weather_data : List (String × String) :=
  [("New York", "72°F, Partly Cloudy"),
   ("London", "18°C, Rainy"),
   ("Tokyo", "25°C, Sunny"),
   ("Sydney", "22°C, Clear")]

/-- The condition list of the synthetic branch of `get_weather`. -/
def conditions : List String :=
  ["Sunny", "Cloudy", "Rainy", "Windy", "Snowy", "Clear"]

/-- The `random` module as an oracle: `randint` and `choice`. -/
structure RandomOracle where
  randint : Int → Int → Int
  choice : List String → String

/-- The `weather://{city}` resource of `remote_mcp_server.py`. -/
def get_weather (rng : RandomOracle) (city : String) : String :=
  match weather_data.lookup city with
  | some report => "Current weather in " ++ city ++ ": " ++ report
  | none =>
      let temp := rng.randint 10 35
      let cond := rng.choice conditions
      "Current weather in " ++ city ++ ": " ++ toString temp ++ "°C, " ++ cond

/-- Oracle instantiation: `randint` answers with the lower bound,
`choice` with the first element. -/
def loOracle : RandomOracle := ⟨fun lo _ => lo, fun l => l.headD ""⟩

/-- Oracle instantiation: `randint` answers with the upper bound,
`choice` with the last element. -/
def hiOracle : RandomOracle := ⟨fun _ hi => hi, fun l => l.getLastD ""⟩

/-- `weather_data.lookup` misses exactly when the city is not one of the
four hardcoded keys. -/
lemma lookup_weather_eq_none (city : String)
    (h : city ∉ weather_data.map Prod.fst) :
    weather_data.lookup city = none := by
  simp [weather_data] at h
  obtain ⟨h1, h2, h3, h4⟩ := h
  simp [weather_data, List.lookup, beq_eq_false_iff_ne.mpr h1,
    beq_eq_false_iff_ne.mpr h2, beq_eq_false_iff_ne.mpr h3,
    beq_eq_false_iff_ne.mpr h4]

/-! ## Claims -/

/-- C1: the claim requires `calculate` to return an Error result, without
executing, for every expression containing a token outside the closed
grammar — in particular subscript access.  The code instead hands the
string to the host evaluator: `"[1, 2][0]"` parses to a subscript of a
list display, which the closed grammar rejects, yet `calculate` executes
the subscript and returns `"1"`, not an Error result. -/
theorem c1_subscript_is_evaluated :
    parse "[1, 2][0]" = .ok (.subscript (.listD [.num 1, .num 2]) (.num 0)) ∧
    allowedGrammar (.subscript (.listD [.num 1, .num 2]) (.num 0)) = false ∧
    calculate "[1, 2][0]" = "1" :=
  ⟨rfl, rfl, rfl⟩

/-- C2: `calculate` is total — every input yields a string, either the
`str()` of the computed value or an `"Error: "`-prefixed message; no
exception escapes, since the handler's `except Exception` catches the
whole evaluation.  In particular `calculate "1/0"` returns the Error
result carrying the division-by-zero text. -/
theorem c2_calculate_total :
    (∀ s : String,
      (∃ v, evalExpression s = .ok v ∧ calculate s = pyStr v) ∨
      (∃ msg, evalExpression s = .error msg ∧ calculate s = "Error: " ++ msg)) ∧
    calculate "1/0" = "Error: division by zero" := by
  constructor
  · intro s
    cases h : evalExpression s with
    | ok v => exact .inl ⟨v, rfl, by simp [calculate, h]⟩
    | error msg => exact .inr ⟨msg, rfl, by simp [calculate, h]⟩
  · rfl

/-- C3: `"2 + 3 * 4"` parses with multiplication binding tighter than
addition and `calculate` renders the result `14` as the string `"14"`. -/
theorem c3_precedence_fourteen :
    parse "2 + 3 * 4" = .ok (.add (.num 2) (.mul (.num 3) (.num 4))) ∧
    calculate "2 + 3 * 4" = "14" :=
  ⟨rfl, rfl⟩

/-- C4: for a url that starts with neither `http://` nor `https://`,
`fetch_webpage` returns the scheme Error string, and the returned value is
independent of the network oracle — no network I/O influences it. -/
theorem c4_non_http_rejected (net net' : String → FetchOutcome) (url : String)
    (h1 : strStartsWith url "http://" = false)
    (h2 : strStartsWith url "https://" = false) :
    fetch_webpage net url = "Error: URL must start with http:// or https://" ∧
    fetch_webpage net url = fetch_webpage net' url := by
  constructor <;> simp [fetch_webpage, h1, h2]

/-- Witness for C4 at `url = "ftp://x"` with two different oracles. -/
theorem c4_non_http_rejected_witness :
    strStartsWith "ftp://x" "http://" = false ∧
    strStartsWith "ftp://x" "https://" = false ∧
    (fetch_webpage (fun _ => .success "body") "ftp://x" =
        "Error: URL must start with http:// or https://" ∧
      fetch_webpage (fun _ => .success "body") "ftp://x" =
        fetch_webpage (fun _ => .failure "down") "ftp://x") :=
  ⟨rfl, rfl, c4_non_http_rejected _ _ "ftp://x" rfl rfl⟩

/-- C5: on a successful fetch, `fetch_webpage` returns the slice
`response.text[:10000]`, hence at most the first 10,000 characters of the
body. -/
theorem c5_body_truncated (net : String → FetchOutcome) (url body : String)
    (hscheme : (strStartsWith url "http://" || strStartsWith url "https://") = true)
    (hnet : net url = .success body) :
    fetch_webpage net url = strTake body 10000 ∧
    (fetch_webpage net url).length ≤ 10000 := by
  have hres : fetch_webpage net url = strTake body 10000 := by
    simp [fetch_webpage, hscheme, hnet]
  refine ⟨hres, hres ▸ ?_⟩
  exact List.length_take_le 10000 body.toList

/-- Witness for C5 at `url = "http://x"` with a five-character body. -/
theorem c5_body_truncated_witness :
    ((strStartsWith "http://x" "http://" || strStartsWith "http://x" "https://") = true) ∧
    ((fun _ => FetchOutcome.success "hello") "http://x" = .success "hello") ∧
    (fetch_webpage (fun _ => .success "hello") "http://x" = strTake "hello" 10000 ∧
      (fetch_webpage (fun _ => .success "hello") "http://x").length ≤ 10000) :=
  ⟨rfl, rfl, c5_body_truncated _ "http://x" "hello" rfl rfl⟩

/-- C6: `echo` returns its argument unchanged.  In the embedding the
handler is a pure function of its argument — it reads and writes no other
state — so two calls with identical input coincide definitionally. -/
theorem c6_echo_identity : ∀ text : String, echo text = text :=
  fun _ => rfl

/-- C7: the weather resource returns the exact canned string for each of
the four hardcoded cities, whatever the random oracle does. -/
theorem c7_canned_weather : ∀ rng : RandomOracle,
    get_weather rng "New York" = "Current weather in New York: 72°F, Partly Cloudy" ∧
    get_weather rng "London" = "Current weather in London: 18°C, Rainy" ∧
    get_weather rng "Tokyo" = "Current weather in Tokyo: 25°C, Sunny" ∧
    get_weather rng "Sydney" = "Current weather in Sydney: 22°C, Clear" :=
  fun _ => ⟨rfl, rfl, rfl, rfl⟩

/-- C8: for a city outside the four hardcoded keys, assuming the `random`
module's contract (`randint 10 35` lies in `[10, 35]`, `choice` picks a
member of its argument), the resource returns the synthetic-format string
with a temperature in `[10, 35]` and a condition from the six-element
list. -/
theorem c8_synthetic_format (rng : RandomOracle) (city : String)
    (hcity : city ∉ weather_data.map Prod.fst)
    (hlo : 10 ≤ rng.randint 10 35) (hhi : rng.randint 10 35 ≤ 35)
    (hchoice : rng.choice conditions ∈ conditions) :
    ∃ (temp : Int) (cond : String),
      get_weather rng city =
        "Current weather in " ++ city ++ ": " ++ toString temp ++ "°C, " ++ cond ∧
      10 ≤ temp ∧ temp ≤ 35 ∧ cond ∈ conditions := by
  refine ⟨rng.randint 10 35, rng.choice conditions, ?_, hlo, hhi, hchoice⟩
  simp [get_weather, lookup_weather_eq_none city hcity]

/-- Witness for C8 at `city = "Nowhere"` with the lower-bound oracle. -/
theorem c8_synthetic_format_witness :
    ("Nowhere" ∉ weather_data.map Prod.fst) ∧
    (10 ≤ loOracle.randint 10 35) ∧ (loOracle.randint 10 35 ≤ 35) ∧
    (loOracle.choice conditions ∈ conditions) ∧
    (∃ (temp : Int) (cond : String),
      get_weather loOracle "Nowhere" =
        "Current weather in " ++ "Nowhere" ++ ": " ++ toString temp ++ "°C, " ++ cond ∧
      10 ≤ temp ∧ temp ≤ 35 ∧ cond ∈ conditions) :=
  ⟨by decide, by decide, by decide, by decide,
    c8_synthetic_format loOracle "Nowhere" (by decide) (by decide) (by decide) (by decide)⟩

/-- C9: the claim says raw internal exception text is not leaked verbatim
in the Error message.  The code returns `f"Error: {str(e)}"` and
`f"Error fetching page: {str(e)}"`: the `str()` of the exception appears
verbatim — for `calculate "nosuch"` the full `NameError` text, and for a
failing fetch the full exception text `msg`, for every such text. -/
theorem c9_raw_exception_text_leaked :
    calculate "nosuch" = "Error: " ++ nameErrorText "nosuch" ∧
    nameErrorText "nosuch" = "name 'nosuch' is not defined" ∧
    ∀ msg : String,
      fetch_webpage (fun _ => .failure msg) "http://x" =
        "Error fetching page: " ++ msg :=
  ⟨rfl, rfl, fun _ => rfl⟩

/-- C10: for the four hardcoded cities the weather resource is
deterministic — its value does not depend on the random oracle at all. -/
theorem c10_hardcoded_deterministic (rng rng' : RandomOracle) (city : String)
    (h : city ∈ ["New York", "London", "Tokyo", "Sydney"]) :
    get_weather rng city = get_weather rng' city := by
  simp at h
  rcases h with rfl | rfl | rfl | rfl <;> rfl

/-- Witness for C10 at `city = "New York"` with two different oracles. -/
theorem c10_hardcoded_deterministic_witness :
    ("New York" ∈ ["New York", "London", "Tokyo", "Sydney"]) ∧
    get_weather loOracle "New York" = get_weather hiOracle "New York" :=
  ⟨by decide, c10_hardcoded_deterministic loOracle hiOracle "New York" (by decide)⟩

end RemoteMcp
